import Mathlib

/-!
Verification of the authentication core of `golang-project-template`:
the Credential Hasher (`pkg/crypto/password.go`), the Token Codec
(`libs/jwt/jwt.go`, `pkg/jwt/jwt.go`), the Authentication Service
(`internal/features/auth/usecase/auth_usecase.go`) and the Authorization
Gate (`internal/shared/delivery/http/middleware/auth.go`).

The repository's own code is embedded directly.  The two external
cryptographic libraries it calls (`golang.org/x/crypto/bcrypt` and
`github.com/golang-jwt/jwt/v5`) are not part of the repository; they are
modelled from their documented contracts, with the cryptographic
primitives idealized: the bcrypt key-derivation function and the HMAC
signatures are represented by values that are equal exactly when all of
their inputs (password/salt/cost, or algorithm/key/signed-message) are
equal, which is the standard collision-free idealization.
-/

namespace Spec2Proof

/-! ## Credential Hasher — `pkg/crypto/password.go` over `x/crypto/bcrypt` -/

/-- Errors surfaced by the bcrypt library as used by `pkg/crypto/password.go`:
`ErrPasswordTooLong` (password over 72 bytes, from `GenerateFromPassword`),
`InvalidCostError` (cost above 31), `ErrMismatchedHashAndPassword`, and the
malformed-stored-hash errors of `newFromHash` collapsed into one case. -/
inductive BcryptError
  | passwordTooLong
  | invalidCost
  | mismatchedHashAndPassword
  | malformedHash
  deriving DecidableEq, Repr

/-- Idealized bcrypt key derivation: the derived key is represented by the
triple of its inputs, so two derived keys are equal exactly when password,
salt and cost all agree (collision-free idealization of the real KDF). -/
def bcryptKey (password : String) (salt : Nat) (cost : Int) : String × Nat × Int :=
  (password, salt, cost)

/-- A well-formed bcrypt hash value: the Go library's output string
`$2a$<cost>$<salt><digest>` encodes the cost, the salt and the derived key,
each recoverable from the string, so the encoding is injective and the hash
is modelled structurally. -/
structure BcryptHash where
  cost : Int
  salt : Nat
  digest : String × Nat × Int
  deriving DecidableEq, Repr

/-- A stored password column / hash argument at the Go `string` level: it
either decodes as a bcrypt hash or it does not (e.g. the empty string). -/
inductive StoredPassword
  | notAHash (s : String)
  | bcryptHash (h : BcryptHash)
  deriving DecidableEq, Repr

/-- `bcrypt.DefaultCost`. -/
def DefaultCost : Int := 10

/-- Modelled from the documented contract of `bcrypt.GenerateFromPassword`
(the library itself is outside the repository): reject passwords over 72
bytes, normalize a cost below `MinCost` (4) to `DefaultCost` (10), reject a
cost above `MaxCost` (31), otherwise derive the key from the password, a
fresh salt and the cost.  The salt, drawn internally from the system RNG, is
made an explicit argument; idealized freshness means distinct calls receive
distinct salts. -/
def GenerateFromPassword (password : String) (cost : Int) (salt : Nat) :
    Except BcryptError BcryptHash :=
  if password.utf8ByteSize > 72 then
    .error .passwordTooLong
  else
    let cost := if cost < 4 then DefaultCost else cost
    if cost > 31 then .error .invalidCost
    else .ok { cost := cost, salt := salt, digest := bcryptKey password salt cost }

/-- Modelled from the documented contract of `bcrypt.CompareHashAndPassword`:
decode the stored hash (malformed input fails), re-derive the key from the
candidate password with the stored salt and cost, and compare digests in
constant time; a digest mismatch yields `ErrMismatchedHashAndPassword`. -/
def CompareHashAndPassword (hashedPassword : StoredPassword) (password : String) :
    Except BcryptError Unit :=
  match hashedPassword with
  | .notAHash _ => .error .malformedHash
  | .bcryptHash h =>
      if h.digest = bcryptKey password h.salt h.cost then .ok ()
      else .error .mismatchedHashAndPassword

/-- `crypto.HashPasswordWithCost` from `pkg/crypto/password.go`. -/
def HashPasswordWithCost (password : String) (cost : Int) (salt : Nat) :
    Except BcryptError BcryptHash :=
  GenerateFromPassword password cost salt

/-- `crypto.HashPassword` from `pkg/crypto/password.go`: hash with the
default cost. -/
def HashPassword (password : String) (salt : Nat) : Except BcryptError BcryptHash :=
  HashPasswordWithCost password DefaultCost salt

/-- `crypto.VerifyPassword` from `pkg/crypto/password.go`: argument order is
(hash, password), result is the bcrypt comparison outcome. -/
def VerifyPassword (hashedPassword : StoredPassword) (password : String) :
    Except BcryptError Unit :=
  CompareHashAndPassword hashedPassword password

/-- `crypto.CheckPasswordHash` from `pkg/crypto/password.go`: argument order
is (password, hash), result is `err == nil` of the same bcrypt comparison. -/
def CheckPasswordHash (password : String) (hash : StoredPassword) : Bool :=
  match CompareHashAndPassword hash password with
  | .ok _ => true
  | .error _ => false

/-! ## Token Codec — `libs/jwt/jwt.go` over `github.com/golang-jwt/jwt/v5`

`GenerateTokenWithExpiry` builds a `Claims` value with
`exp = now + expiry`, `iat = now`, `nbf = now`, signs it with
`jwt.SigningMethodHS256` over the secret, and returns the compact token.
`ValidateToken` parses with a keyfunc that rejects any signing method that
is not `*jwt.SigningMethodHMAC` and otherwise returns `[]byte(secret)`.
The jwt/v5 parser is modelled from its documented behavior: split and
decode the three parts (failure: malformed), resolve the declared `alg`
to a registered method (failure: unverifiable), run the keyfunc (failure:
unverifiable), verify the signature with the declared method and the
returned key (failure: signature invalid), then validate the registered
claims (`exp`, `nbf`).  The three `time.Now()` calls inside one issuance
are modelled as a single injected instant `now` (integer Unix seconds,
the precision at which jwt/v5 serializes `NumericDate`). -/

/-- The `alg` value declared in a token header, as jwt/v5 resolves it:
the three registered HMAC methods, representative registered non-HMAC
methods (`RS256`, `ES256`, the unsigned `none`), and unregistered names. -/
inductive Alg
  | HS256 | HS384 | HS512
  | RS256 | ES256
  | algNone
  | unregistered (name : String)
  deriving DecidableEq, Repr

/-- Whether `jwt.GetSigningMethod` resolves the declared `alg`. -/
def Alg.isRegistered : Alg → Bool
  | .unregistered _ => false
  | _ => true

/-- Whether the resolved method is `*jwt.SigningMethodHMAC`, the type the
keyfunc in `ValidateToken` accepts. -/
def Alg.isHMAC : Alg → Bool
  | .HS256 => true
  | .HS384 => true
  | .HS512 => true
  | _ => false

/-- `jwt.RegisteredClaims` as populated by this codec: `ExpiresAt`,
`IssuedAt`, `NotBefore`, in Unix seconds. -/
structure RegisteredClaims where
  exp : Int
  iat : Int
  nbf : Int
  deriving DecidableEq, Repr

/-- `jwt.Claims` of `libs/jwt/jwt.go`: user id, email, username plus the
registered claims. -/
structure Claims where
  userID : String
  email : String
  username : String
  reg : RegisteredClaims
  deriving DecidableEq, Repr

/-- A token header; only the `alg` field matters to this codec. -/
structure Header where
  alg : Alg
  deriving DecidableEq, Repr

/-- Idealized MAC value: a signature is represented by the algorithm, the
key, and the signed header+payload, so two signatures are equal exactly
when all of these agree (collision-free idealization of HMAC). -/
structure Signature where
  alg : Alg
  key : String
  header : Header
  payload : Claims
  deriving DecidableEq, Repr

/-- Computing the signature over the serialized header+payload. -/
def sign (alg : Alg) (key : String) (h : Header) (p : Claims) : Signature :=
  ⟨alg, key, h, p⟩

/-- A structurally well-formed compact token: header, payload, signature. -/
structure SignedToken where
  header : Header
  payload : Claims
  sig : Signature
  deriving DecidableEq, Repr

/-- A token string on the wire: either it decodes into the three-part
structure or it does not. -/
inductive TokenWire
  | malformed (raw : String)
  | wellFormed (t : SignedToken)
  deriving DecidableEq, Repr

/-- `jwt.UserPayload` of `libs/jwt/jwt.go`. -/
structure UserPayload where
  ID : String
  Email : String
  Username : String
  deriving DecidableEq, Repr

/-- The error classes of jwt/v5 as observed through `ValidateToken`:
`ErrTokenMalformed`, `ErrTokenUnverifiable` (unknown `alg` or keyfunc
rejection), `ErrTokenSignatureInvalid`, and the claim-validation errors
`ErrTokenExpired` and `ErrTokenNotValidYet`.  `invalidToken` models the
`!token.Valid` fallback in `ValidateToken`, which jwt/v5 makes
unreachable (a nil parse error implies a valid token). -/
inductive JwtError
  | tokenMalformed
  | tokenUnverifiable
  | tokenSignatureInvalid
  | tokenExpired
  | tokenNotValidYet
  | invalidToken
  deriving DecidableEq, Repr

/-- One hour in Unix seconds (`time.Hour`). -/
def hourSeconds : Int := 3600

/-- `jwt.GenerateTokenWithExpiry` from `libs/jwt/jwt.go`: claims carry
`exp = now + expiry`, `iat = now`, `nbf = now`; the token is signed with
HS256 over the secret.  Signing with an HMAC method and a byte-slice key
cannot fail, so the result is total. -/
def GenerateTokenWithExpiry (secret : String) (user : UserPayload)
    (expiry : Int) (now : Int) : SignedToken :=
  let claims : Claims :=
    { userID := user.ID
      email := user.Email
      username := user.Username
      reg := { exp := now + expiry, iat := now, nbf := now } }
  let header : Header := ⟨.HS256⟩
  ⟨header, claims, sign .HS256 secret header claims⟩

/-- `jwt.GenerateToken` from `libs/jwt/jwt.go`: fixed 24-hour expiry. -/
def GenerateToken (secret : String) (user : UserPayload) (now : Int) : SignedToken :=
  GenerateTokenWithExpiry secret user (24 * hourSeconds) now

/-- `jwt.ValidateToken` from `libs/jwt/jwt.go`, over the jwt/v5 parser
(see the section comment): malformed wire, unregistered `alg`, keyfunc
rejection of non-HMAC methods, signature verification with the declared
method and `[]byte(secret)`, then `exp`/`nbf` validation with zero leeway
(`now.After(exp)` fails, `now.Before(nbf)` fails). -/
def ValidateToken (secret : String) (wire : TokenWire) (now : Int) :
    Except JwtError Claims :=
  match wire with
  | .malformed _ => .error .tokenMalformed
  | .wellFormed t =>
      if !t.header.alg.isRegistered then .error .tokenUnverifiable
      else if !t.header.alg.isHMAC then .error .tokenUnverifiable
      else if t.sig ≠ sign t.header.alg secret t.header t.payload then
        .error .tokenSignatureInvalid
      else if t.payload.reg.exp < now then .error .tokenExpired
      else if now < t.payload.reg.nbf then .error .tokenNotValidYet
      else .ok t.payload

/-! ## Authentication Service — `internal/features/auth/usecase/auth_usecase.go`

`Register` and `Login` of `authUsecase`, over the `UserRepository`
collaborator and the domain errors of `internal/shared/domain/error`.
The repository lookups return `(user, err)`; the usecase only
distinguishes "a user was returned" from "no user / error", which is
modelled with `Option`.  The freshly generated UUID of `entity.NewUser`
and the salt drawn inside `crypto.HashPassword` are explicit arguments. -/

/-- The sentinel domain errors of `internal/shared/domain/error`. -/
inductive DomainErr
  | userNotFound
  | invalidCredentials
  | userAlreadyExists
  | unauthorized
  | internalServer
  deriving DecidableEq, Repr

/-- The `Err` field of a `CustomError`: a domain sentinel, a wrapped
bcrypt error from hashing, or a wrapped persistence error. -/
inductive ErrKind
  | domain (e : DomainErr)
  | bcrypt (e : BcryptError)
  | persistence
  deriving DecidableEq, Repr

/-- `domainError.CustomError`: HTTP-level code, message, wrapped error. -/
structure CustomError where
  code : Nat
  message : String
  err : ErrKind
  deriving DecidableEq, Repr

/-- `domainError.NewCustomError`. -/
def NewCustomError (code : Nat) (message : String) (err : ErrKind) : CustomError :=
  ⟨code, message, err⟩

/-- `entity.User` (the fields the authentication core reads and writes):
string UUID primary key, unique email and username, the stored password
hash, names, active flag. -/
structure User where
  id : String
  email : String
  username : String
  password : StoredPassword
  firstName : String
  lastName : String
  isActive : Bool
  deriving DecidableEq, Repr

/-- The cleared password field (`user.Password = ""`). -/
def emptyPassword : StoredPassword := .notAHash ""

/-- `entity.NewUser`: fresh UUID, supplied fields, active by default. -/
def NewUser (email username : String) (password : StoredPassword)
    (firstName lastName : String) (uuid : String) : User :=
  { id := uuid, email := email, username := username, password := password,
    firstName := firstName, lastName := lastName, isActive := true }

/-- The `repository.UserRepository` collaborator as the usecase observes
it: `GetByEmail`/`GetByUsername` either produce a user or not, and
`Create` either succeeds or fails. -/
structure UserRepository where
  getByEmail : String → Option User
  getByUsername : String → Option User
  createOk : User → Bool

/-- `dto.RegisterRequest`. -/
structure RegisterRequest where
  email : String
  username : String
  password : String
  firstName : String
  lastName : String
  deriving DecidableEq, Repr

/-- `dto.LoginRequest`. -/
structure LoginRequest where
  email : String
  password : String
  deriving DecidableEq, Repr

/-- `usecase.LoginResponse`: the user (password cleared) and the token. -/
structure LoginResponse where
  user : User
  token : SignedToken
  deriving DecidableEq, Repr

/-- The observable side effects of one `Register` call, in execution
order, used to state that the duplicate branches perform no hashing and
no persistence. -/
inductive Effect
  | lookupEmail (email : String)
  | lookupUsername (username : String)
  | hashPassword
  | persistUser
  deriving DecidableEq, Repr

/-- The duplicate-email failure of `Register`. -/
def duplicateEmailError : CustomError :=
  NewCustomError 400 "user already exists" (.domain .userAlreadyExists)

/-- The duplicate-username failure of `Register`. -/
def duplicateUsernameError : CustomError :=
  NewCustomError 400 "username already taken" (.domain .userAlreadyExists)

/-- `authUsecase.Register`: duplicate-email check, duplicate-username
check, password hashing, persistence, and the response with the password
field cleared; alongside the result, the trace of effects the call
performed. -/
def Register (repo : UserRepository) (req : RegisterRequest)
    (salt : Nat) (uuid : String) : Except CustomError User × List Effect :=
  let ev₁ : List Effect := [.lookupEmail req.email]
  match repo.getByEmail req.email with
  | some _ => (.error duplicateEmailError, ev₁)
  | none =>
      let ev₂ := ev₁ ++ [.lookupUsername req.username]
      match repo.getByUsername req.username with
      | some _ => (.error duplicateUsernameError, ev₂)
      | none =>
          let ev₃ := ev₂ ++ [.hashPassword]
          match HashPassword req.password salt with
          | .error e =>
              (.error (NewCustomError 500 "failed to hash password" (.bcrypt e)), ev₃)
          | .ok h =>
              let user := NewUser req.email req.username (.bcryptHash h)
                req.firstName req.lastName uuid
              let ev₄ := ev₃ ++ [.persistUser]
              if repo.createOk user then
                (.ok { user with password := emptyPassword }, ev₄)
              else
                (.error (NewCustomError 500 "failed to create user" .persistence), ev₄)

/-- The single failure value of `Login` for a missing user and for a
password mismatch alike. -/
def invalidCredentialsError : CustomError :=
  NewCustomError 401 "invalid credentials" (.domain .invalidCredentials)

/-- `authUsecase.Login`: lookup by email, password verification, token
issuance with the user's id/email/username, response with the password
cleared.  HS256 signing cannot fail, so the token-generation error branch
of the Go code is not reachable in the model. -/
def Login (repo : UserRepository) (secret : String) (req : LoginRequest)
    (now : Int) : Except CustomError LoginResponse :=
  match repo.getByEmail req.email with
  | none => .error invalidCredentialsError
  | some user =>
      match VerifyPassword user.password req.password with
      | .error _ => .error invalidCredentialsError
      | .ok _ =>
          let token := GenerateToken secret ⟨user.id, user.email, user.username⟩ now
          .ok { user := { user with password := emptyPassword }, token := token }

/-! ## Authorization Gate — `internal/shared/delivery/http/middleware/auth.go`

`AuthMiddleware` reads the `Authorization` header (gin's `GetHeader`
returns the empty string when the header is absent, and the code's first
check is against `""`), requires the `"Bearer "` scheme, strips it
(`strings.TrimPrefix`; under the already-checked scheme this is dropping
the 7 characters of `"Bearer "`), rejects an empty remainder, and
delegates to the Token Codec, aborting with a 401 response on any codec
error and otherwise storing the claims' user id, email and username in
the request context and calling `c.Next()`.  The codec is the function
the middleware delegates to — `jwt.ValidateToken(secret, ·)` applied to
the wire string — and is passed as the `validateToken` argument, exactly
as the middleware treats it: a black box returning claims or an error. -/

/-- The Authenticated Principal the gate stores in the request context
(`user_id`, `user_email`, `user_username`). -/
structure Principal where
  userID : String
  email : String
  username : String
  deriving DecidableEq, Repr

/-- The per-request outcome of the gate: an aborted request with an HTTP
status and message (`response.Unauthorized` + `c.Abort()`), or passage to
the next handler with the principal attached. -/
inductive GateOutcome
  | abort (status : Nat) (message : String)
  | proceed (p : Principal)
  deriving DecidableEq, Repr

/-- `strings.HasPrefix(s, "Bearer ")`: the scheme constant is 7 ASCII
characters, so the prefix test is the equality of the first 7 characters
with `"Bearer "`. -/
def hasBearerScheme (s : String) : Bool :=
  s.take 7 = "Bearer "

/-- `middleware.AuthMiddleware` from
`internal/shared/delivery/http/middleware/auth.go`. -/
def AuthMiddleware (validateToken : String → Except JwtError Claims)
    (authHeader : String) : GateOutcome :=
  if authHeader = "" then .abort 401 "Authorization header is required"
  else if !hasBearerScheme authHeader then
    .abort 401 "Invalid authorization header format"
  else
    let token := authHeader.drop 7
    if token = "" then .abort 401 "Token is required"
    else
      match validateToken token with
      | .error _ => .abort 401 "Invalid token"
      | .ok claims => .proceed ⟨claims.userID, claims.email, claims.username⟩

/-- A protected endpoint behind the gate: the handler runs only when the
middleware proceeds, so an aborted request never produces a handler
result. -/
def runProtected {α : Type} (validateToken : String → Except JwtError Claims)
    (handler : Principal → α) (authHeader : String) : Except (Nat × String) α :=
  match AuthMiddleware validateToken authHeader with
  | .abort s m => .error (s, m)
  | .proceed p => .ok (handler p)

/-! ### Claims about the Credential Hasher -/

/-- C8: verifying a password against its own hash succeeds, and verifying
any other password against that hash fails with the mismatch error. -/
theorem verifyPassword_hashPassword_roundtrip (P Q : String) (salt : Nat)
    (hp : BcryptHash) (hne : P ≠ Q) (hh : HashPassword P salt = .ok hp) :
    VerifyPassword (.bcryptHash hp) P = .ok () ∧
    VerifyPassword (.bcryptHash hp) Q = .error .mismatchedHashAndPassword := by
  unfold HashPassword HashPasswordWithCost GenerateFromPassword at hh
  by_cases hlen : P.utf8ByteSize > 72
  · simp [hlen] at hh
  · simp [hlen, DefaultCost] at hh
    subst hh
    refine ⟨by simp [VerifyPassword, CompareHashAndPassword, bcryptKey], ?_⟩
    simp [VerifyPassword, CompareHashAndPassword, bcryptKey]
    intro hPQ
    exact absurd hPQ hne

/-- Witness for C8 at P = "secret123", Q = "wrongPassword", salt 0. -/
theorem verifyPassword_hashPassword_roundtrip_witness :
    VerifyPassword (.bcryptHash ⟨10, 0, ("secret123", 0, 10)⟩) "secret123" = .ok () ∧
    VerifyPassword (.bcryptHash ⟨10, 0, ("secret123", 0, 10)⟩) "wrongPassword" =
      .error .mismatchedHashAndPassword :=
  verifyPassword_hashPassword_roundtrip "secret123" "wrongPassword" 0
    ⟨10, 0, ("secret123", 0, 10)⟩ (by decide) rfl

/-- C9: hashing the same password under two distinct fresh salts yields two
distinct hash values (the salt is embedded in the hash, so the encoded hash
strings differ), and both hashes verify against the original password. -/
theorem hashPassword_salt_freshness (P : String) (s₁ s₂ : Nat) (h₁ h₂ : BcryptHash)
    (hs : s₁ ≠ s₂)
    (hh₁ : HashPassword P s₁ = .ok h₁) (hh₂ : HashPassword P s₂ = .ok h₂) :
    h₁ ≠ h₂ ∧
    VerifyPassword (.bcryptHash h₁) P = .ok () ∧
    VerifyPassword (.bcryptHash h₂) P = .ok () := by
  unfold HashPassword HashPasswordWithCost GenerateFromPassword at hh₁ hh₂
  by_cases hlen : P.utf8ByteSize > 72
  · simp [hlen] at hh₁
  · simp [hlen, DefaultCost] at hh₁ hh₂
    subst hh₁; subst hh₂
    refine ⟨?_, by simp [VerifyPassword, CompareHashAndPassword, bcryptKey],
      by simp [VerifyPassword, CompareHashAndPassword, bcryptKey]⟩
    intro hEq
    exact hs (congrArg BcryptHash.salt hEq)

/-- Witness for C9 at P = "secret123", salts 0 and 1. -/
theorem hashPassword_salt_freshness_witness :
    (⟨10, 0, ("secret123", 0, 10)⟩ : BcryptHash) ≠ ⟨10, 1, ("secret123", 1, 10)⟩ ∧
    VerifyPassword (.bcryptHash ⟨10, 0, ("secret123", 0, 10)⟩) "secret123" = .ok () ∧
    VerifyPassword (.bcryptHash ⟨10, 1, ("secret123", 1, 10)⟩) "secret123" = .ok () :=
  hashPassword_salt_freshness "secret123" 0 1 _ _ (by decide) rfl rfl

/-- C10: the boolean helper `CheckPasswordHash(P, H)` returns `true` exactly
when `VerifyPassword(H, P)` returns nil, for every password and every stored
hash string, despite the two entry points taking their arguments in opposite
orders. -/
theorem checkPasswordHash_iff_verifyPassword (P : String) (H : StoredPassword) :
    CheckPasswordHash P H = true ↔ VerifyPassword H P = .ok () := by
  cases H with
  | notAHash s => simp [CheckPasswordHash, VerifyPassword, CompareHashAndPassword]
  | bcryptHash h =>
      by_cases hd : h.digest = bcryptKey P h.salt h.cost
      · simp [CheckPasswordHash, VerifyPassword, CompareHashAndPassword, hd]
      · simp [CheckPasswordHash, VerifyPassword, CompareHashAndPassword, hd]

/-! ### Claims about the Token Codec -/

/-- C6: every issued token satisfies `exp = iat + ttl` and `nbf = iat`, and
the default `GenerateToken` path is exactly the 24-hour (86400-second)
instance of `GenerateTokenWithExpiry`. -/
theorem generateToken_expiry_invariant (secret : String) (user : UserPayload)
    (ttl now : Int) :
    (GenerateTokenWithExpiry secret user ttl now).payload.reg.exp
        = (GenerateTokenWithExpiry secret user ttl now).payload.reg.iat + ttl ∧
    (GenerateTokenWithExpiry secret user ttl now).payload.reg.nbf
        = (GenerateTokenWithExpiry secret user ttl now).payload.reg.iat ∧
    GenerateToken secret user now
        = GenerateTokenWithExpiry secret user (24 * hourSeconds) now ∧
    (GenerateToken secret user now).payload.reg.exp
        = (GenerateToken secret user now).payload.reg.iat + 86400 := by
  refine ⟨rfl, rfl, rfl, ?_⟩
  show now + 24 * hourSeconds = now + 86400
  norm_num [hourSeconds]

/-- C4: a token issued with a secret parses with the same secret at any
instant inside its validity window, returning claims whose user id, email
and username are those supplied at issuance. -/
theorem validateToken_generateToken_roundtrip (secret : String) (user : UserPayload)
    (ttl now now' : Int) (h₁ : now ≤ now') (h₂ : now' ≤ now + ttl) :
    ValidateToken secret (.wellFormed (GenerateTokenWithExpiry secret user ttl now)) now'
      = .ok { userID := user.ID, email := user.Email, username := user.Username,
              reg := { exp := now + ttl, iat := now, nbf := now } } := by
  have hexp : ¬ (now + ttl < now') := by omega
  have hnbf : ¬ (now' < now) := by omega
  simp [ValidateToken, GenerateTokenWithExpiry, sign, Alg.isRegistered, Alg.isHMAC,
    hexp, hnbf]

/-- Witness for C4: issue at time 0 with a one-hour ttl, parse at time 10. -/
theorem validateToken_generateToken_roundtrip_witness :
    ValidateToken "test-secret-key"
      (.wellFormed (GenerateTokenWithExpiry "test-secret-key"
        ⟨"user-123", "test@example.com", "testuser"⟩ 3600 0)) 10
      = .ok { userID := "user-123", email := "test@example.com",
              username := "testuser", reg := { exp := 3600, iat := 0, nbf := 0 } } :=
  validateToken_generateToken_roundtrip "test-secret-key"
    ⟨"user-123", "test@example.com", "testuser"⟩ 3600 0 10 (by decide) (by decide)

/-- C5: a token issued with secret S₁ never validates with a different
secret S₂; it always fails with the signature-mismatch error, at every
parse time (signature verification precedes expiry validation in jwt/v5). -/
theorem validateToken_wrong_secret (s₁ s₂ : String) (user : UserPayload)
    (ttl now now' : Int) (hne : s₁ ≠ s₂) :
    ValidateToken s₂ (.wellFormed (GenerateTokenWithExpiry s₁ user ttl now)) now'
      = .error .tokenSignatureInvalid := by
  simp [ValidateToken, GenerateTokenWithExpiry, sign, Alg.isRegistered, Alg.isHMAC,
    Signature.mk.injEq, hne]

/-- Witness for C5 at two concrete distinct secrets. -/
theorem validateToken_wrong_secret_witness :
    ValidateToken "wrong-secret"
      (.wellFormed (GenerateTokenWithExpiry "test-secret-key"
        ⟨"user-123", "test@example.com", "testuser"⟩ 3600 0)) 0
      = .error .tokenSignatureInvalid :=
  validateToken_wrong_secret "test-secret-key" "wrong-secret"
    ⟨"user-123", "test@example.com", "testuser"⟩ 3600 0 0 (by decide)

/-- C1 counterexample: the keyfunc of `ValidateToken` accepts every
`*jwt.SigningMethodHMAC`, not only the pinned HS256 used at issuance, so a
token whose header declares HS384 — an algorithm other than the expected
one — and whose HS384 signature is computed with the correct secret is
accepted as valid rather than rejected. -/
theorem validateToken_accepts_hs384_token :
    (⟨.HS384⟩ : Header).alg ≠ .HS256 ∧
    ValidateToken "topsecret"
      (.wellFormed ⟨⟨.HS384⟩,
        ⟨"user-123", "test@example.com", "testuser", ⟨86400, 0, 0⟩⟩,
        sign .HS384 "topsecret" ⟨.HS384⟩
          ⟨"user-123", "test@example.com", "testuser", ⟨86400, 0, 0⟩⟩⟩) 0
      = .ok ⟨"user-123", "test@example.com", "testuser", ⟨86400, 0, 0⟩⟩ :=
  ⟨by decide, rfl⟩

/-- C1 amended: the codec pins the HMAC *family*, not a single algorithm:
a token declaring any non-HMAC method (`none`, RSA, ECDSA, or an
unregistered name) is always rejected with the unverifiable-class error
and never accepted, while a token declaring any HMAC-family method whose
signature verifies under the secret is accepted inside its validity
window. -/
theorem validateToken_pins_hmac_family (secret : String) (t : SignedToken) (now : Int) :
    (t.header.alg.isHMAC = false →
       ValidateToken secret (.wellFormed t) now = .error .tokenUnverifiable) ∧
    (t.header.alg.isHMAC = true →
       t.sig = sign t.header.alg secret t.header t.payload →
       now ≤ t.payload.reg.exp → t.payload.reg.nbf ≤ now →
       ValidateToken secret (.wellFormed t) now = .ok t.payload) := by
  constructor
  · intro hF
    by_cases hreg : t.header.alg.isRegistered = true
    · simp [ValidateToken, hreg, hF]
    · have hreg' : t.header.alg.isRegistered = false := by simpa using hreg
      simp [ValidateToken, hreg']
  · intro hT hsig hexp hnbf
    have hreg : t.header.alg.isRegistered = true := by
      cases halg : t.header.alg <;> simp_all [Alg.isHMAC, Alg.isRegistered]
    have hexp' : ¬ (t.payload.reg.exp < now) := by omega
    have hnbf' : ¬ (now < t.payload.reg.nbf) := by omega
    simp [ValidateToken, hreg, hT, hsig, hexp', hnbf']

/-- Witness for C1 amended: an unsigned `alg: none` token is rejected as
unverifiable, and a correctly HS256-signed token is accepted. -/
theorem validateToken_pins_hmac_family_witness :
    ValidateToken "topsecret"
      (.wellFormed ⟨⟨.algNone⟩,
        ⟨"user-123", "test@example.com", "testuser", ⟨86400, 0, 0⟩⟩,
        sign .algNone "topsecret" ⟨.algNone⟩
          ⟨"user-123", "test@example.com", "testuser", ⟨86400, 0, 0⟩⟩⟩) 0
      = .error .tokenUnverifiable ∧
    ValidateToken "topsecret"
      (.wellFormed ⟨⟨.HS256⟩,
        ⟨"user-123", "test@example.com", "testuser", ⟨86400, 0, 0⟩⟩,
        sign .HS256 "topsecret" ⟨.HS256⟩
          ⟨"user-123", "test@example.com", "testuser", ⟨86400, 0, 0⟩⟩⟩) 0
      = .ok ⟨"user-123", "test@example.com", "testuser", ⟨86400, 0, 0⟩⟩ :=
  ⟨(validateToken_pins_hmac_family "topsecret" _ 0).1 rfl,
   (validateToken_pins_hmac_family "topsecret" _ 0).2 rfl rfl (by decide) (by decide)⟩

/-! ### Claims about the Authentication Service -/

/-- C2: a login for an unknown email and a login for a known email with a
non-matching password fail with the very same error value — code 401,
message "invalid credentials", sentinel `ErrInvalidCredentials` — so the
two cases are indistinguishable to the caller. -/
theorem login_indistinguishable_failures (repo₁ repo₂ : UserRepository)
    (secret₁ secret₂ : String) (req₁ req₂ : LoginRequest) (now₁ now₂ : Int)
    (u : User) (e : BcryptError)
    (h₁ : repo₁.getByEmail req₁.email = none)
    (h₂ : repo₂.getByEmail req₂.email = some u)
    (h₃ : VerifyPassword u.password req₂.password = .error e) :
    Login repo₁ secret₁ req₁ now₁ = .error invalidCredentialsError ∧
    Login repo₂ secret₂ req₂ now₂ = .error invalidCredentialsError := by
  constructor
  · simp [Login, h₁]
  · simp [Login, h₂, h₃]

/-- Witness for C2: a one-user store; logging in with an unknown email and
with the stored email but the wrong password yield the same error value. -/
theorem login_indistinguishable_failures_witness :
    Login ⟨fun e => if e = "a@x.com"
              then some ⟨"id-1", "a@x.com", "alice",
                .bcryptHash ⟨10, 0, ("secret123", 0, 10)⟩, "A", "Lice", true⟩
              else none, fun _ => none, fun _ => true⟩
        "test-secret-key" ⟨"nobody@x.com", "secret123"⟩ 0
      = .error invalidCredentialsError ∧
    Login ⟨fun e => if e = "a@x.com"
              then some ⟨"id-1", "a@x.com", "alice",
                .bcryptHash ⟨10, 0, ("secret123", 0, 10)⟩, "A", "Lice", true⟩
              else none, fun _ => none, fun _ => true⟩
        "test-secret-key" ⟨"a@x.com", "wrongpass"⟩ 0
      = .error invalidCredentialsError :=
  login_indistinguishable_failures _ _ "test-secret-key" "test-secret-key"
    ⟨"nobody@x.com", "secret123"⟩ ⟨"a@x.com", "wrongpass"⟩ 0 0
    ⟨"id-1", "a@x.com", "alice", .bcryptHash ⟨10, 0, ("secret123", 0, 10)⟩,
      "A", "Lice", true⟩
    .mismatchedHashAndPassword rfl rfl rfl

/-- C7: the duplicate-email check runs strictly before the
duplicate-username check: a taken email fails with the duplicate-email
error whatever `getByUsername` would answer, a free email with a taken
username fails with the duplicate-username error, and in both duplicate
cases the effect trace contains neither a hashing nor a persistence
effect. -/
theorem register_email_checked_before_username (repo : UserRepository)
    (req : RegisterRequest) (salt : Nat) (uuid : String) (u : User) :
    (repo.getByEmail req.email = some u →
       (Register repo req salt uuid).1 = .error duplicateEmailError ∧
       .hashPassword ∉ (Register repo req salt uuid).2 ∧
       .persistUser ∉ (Register repo req salt uuid).2) ∧
    (repo.getByEmail req.email = none → repo.getByUsername req.username = some u →
       (Register repo req salt uuid).1 = .error duplicateUsernameError ∧
       .hashPassword ∉ (Register repo req salt uuid).2 ∧
       .persistUser ∉ (Register repo req salt uuid).2) := by
  constructor
  · intro hE
    refine ⟨by simp [Register, hE], by simp [Register, hE], by simp [Register, hE]⟩
  · intro hE hU
    refine ⟨by simp [Register, hE, hU], by simp [Register, hE, hU],
      by simp [Register, hE, hU]⟩

/-- Witness for C7: a store where both "a@x.com" and username "alice" are
taken reports the duplicate-email error, and a store where only "alice"
is taken reports the duplicate-username error; neither trace hashes or
persists. -/
theorem register_email_checked_before_username_witness :
    ((Register ⟨fun _ => some ⟨"id-1", "a@x.com", "alice", emptyPassword, "A", "L", true⟩,
        fun _ => some ⟨"id-1", "a@x.com", "alice", emptyPassword, "A", "L", true⟩,
        fun _ => true⟩
        ⟨"a@x.com", "alice", "secret123", "A", "Lice"⟩ 0 "uuid-1").1
      = .error duplicateEmailError ∧
     .hashPassword ∉ (Register ⟨fun _ => some ⟨"id-1", "a@x.com", "alice", emptyPassword, "A", "L", true⟩,
        fun _ => some ⟨"id-1", "a@x.com", "alice", emptyPassword, "A", "L", true⟩,
        fun _ => true⟩
        ⟨"a@x.com", "alice", "secret123", "A", "Lice"⟩ 0 "uuid-1").2 ∧
     .persistUser ∉ (Register ⟨fun _ => some ⟨"id-1", "a@x.com", "alice", emptyPassword, "A", "L", true⟩,
        fun _ => some ⟨"id-1", "a@x.com", "alice", emptyPassword, "A", "L", true⟩,
        fun _ => true⟩
        ⟨"a@x.com", "alice", "secret123", "A", "Lice"⟩ 0 "uuid-1").2) ∧
    ((Register ⟨fun _ => none,
        fun _ => some ⟨"id-1", "b@x.com", "alice", emptyPassword, "A", "L", true⟩,
        fun _ => true⟩
        ⟨"a@x.com", "alice", "secret123", "A", "Lice"⟩ 0 "uuid-1").1
      = .error duplicateUsernameError ∧
     .hashPassword ∉ (Register ⟨fun _ => none,
        fun _ => some ⟨"id-1", "b@x.com", "alice", emptyPassword, "A", "L", true⟩,
        fun _ => true⟩
        ⟨"a@x.com", "alice", "secret123", "A", "Lice"⟩ 0 "uuid-1").2 ∧
     .persistUser ∉ (Register ⟨fun _ => none,
        fun _ => some ⟨"id-1", "b@x.com", "alice", emptyPassword, "A", "L", true⟩,
        fun _ => true⟩
        ⟨"a@x.com", "alice", "secret123", "A", "Lice"⟩ 0 "uuid-1").2) :=
  ⟨(register_email_checked_before_username _ _ 0 "uuid-1"
      ⟨"id-1", "a@x.com", "alice", emptyPassword, "A", "L", true⟩).1 rfl,
   (register_email_checked_before_username _ _ 0 "uuid-1"
      ⟨"id-1", "b@x.com", "alice", emptyPassword, "A", "L", true⟩).2 rfl rfl⟩

/-! ### Claim about the Authorization Gate -/

/-- C3: an absent header, a non-Bearer scheme, an empty stripped token,
and a codec failure of any kind all abort the request with the same
401 status (the unauthenticated outcome; the response messages name the
stage but the class is uniformly 401) and the protected handler never
runs; only a successful parse attaches the principal built from the
claims and lets the handler run. -/
theorem authMiddleware_gate {α : Type} (validate : String → Except JwtError Claims)
    (handler : Principal → α) (authHeader : String) :
    (authHeader = "" →
       AuthMiddleware validate authHeader
           = .abort 401 "Authorization header is required" ∧
       runProtected validate handler authHeader
           = .error (401, "Authorization header is required")) ∧
    (authHeader ≠ "" → hasBearerScheme authHeader = false →
       AuthMiddleware validate authHeader
           = .abort 401 "Invalid authorization header format" ∧
       runProtected validate handler authHeader
           = .error (401, "Invalid authorization header format")) ∧
    (hasBearerScheme authHeader = true → authHeader.drop 7 = "" →
       AuthMiddleware validate authHeader = .abort 401 "Token is required" ∧
       runProtected validate handler authHeader
           = .error (401, "Token is required")) ∧
    (∀ e : JwtError, hasBearerScheme authHeader = true →
       authHeader.drop 7 ≠ "" → validate (authHeader.drop 7) = .error e →
       AuthMiddleware validate authHeader = .abort 401 "Invalid token" ∧
       runProtected validate handler authHeader = .error (401, "Invalid token")) ∧
    (∀ c : Claims, hasBearerScheme authHeader = true →
       authHeader.drop 7 ≠ "" → validate (authHeader.drop 7) = .ok c →
       AuthMiddleware validate authHeader
           = .proceed ⟨c.userID, c.email, c.username⟩ ∧
       runProtected validate handler authHeader
           = .ok (handler ⟨c.userID, c.email, c.username⟩)) := by
  have hne : hasBearerScheme authHeader = true → ¬ authHeader = "" := by
    intro hT hE
    rw [hE] at hT
    exact absurd hT (by decide)
  refine ⟨?_, ?_, ?_, ?_, ?_⟩
  · intro hE
    exact ⟨by simp [AuthMiddleware, hE], by simp [runProtected, AuthMiddleware, hE]⟩
  · intro hE hSW
    exact ⟨by simp [AuthMiddleware, hE, hSW],
      by simp [runProtected, AuthMiddleware, hE, hSW]⟩
  · intro hSW hTok
    exact ⟨by simp [AuthMiddleware, hne hSW, hSW, hTok],
      by simp [runProtected, AuthMiddleware, hne hSW, hSW, hTok]⟩
  · intro e hSW hTok hV
    exact ⟨by simp [AuthMiddleware, hne hSW, hSW, hTok, hV],
      by simp [runProtected, AuthMiddleware, hne hSW, hSW, hTok, hV]⟩
  · intro c hSW hTok hV
    exact ⟨by simp [AuthMiddleware, hne hSW, hSW, hTok, hV],
      by simp [runProtected, AuthMiddleware, hne hSW, hSW, hTok, hV]⟩

/-- Witness for C3: the four rejected requests (no header, Basic scheme,
empty Bearer token, expired token) all abort with status 401 and the
handler never runs, and a valid token proceeds to the handler with the
decoded principal. -/
theorem authMiddleware_gate_witness :
    (AuthMiddleware (fun _ => .error JwtError.tokenExpired) ""
        = .abort 401 "Authorization header is required" ∧
     runProtected (fun _ => .error JwtError.tokenExpired) (fun p => p) ""
        = .error (401, "Authorization header is required")) ∧
    (AuthMiddleware (fun _ => .error JwtError.tokenExpired) "Basic dXNlcg=="
        = .abort 401 "Invalid authorization header format" ∧
     runProtected (fun _ => .error JwtError.tokenExpired) (fun p => p) "Basic dXNlcg=="
        = .error (401, "Invalid authorization header format")) ∧
    (AuthMiddleware (fun _ => .error JwtError.tokenExpired) "Bearer "
        = .abort 401 "Token is required" ∧
     runProtected (fun _ => .error JwtError.tokenExpired) (fun p => p) "Bearer "
        = .error (401, "Token is required")) ∧
    (AuthMiddleware (fun _ => .error JwtError.tokenExpired) "Bearer abc"
        = .abort 401 "Invalid token" ∧
     runProtected (fun _ => .error JwtError.tokenExpired) (fun p => p) "Bearer abc"
        = .error (401, "Invalid token")) ∧
    (AuthMiddleware (fun _ => .ok ⟨"user-123", "test@example.com", "testuser", ⟨86400, 0, 0⟩⟩)
        "Bearer abc"
        = .proceed ⟨"user-123", "test@example.com", "testuser"⟩ ∧
     runProtected (fun _ => .ok ⟨"user-123", "test@example.com", "testuser", ⟨86400, 0, 0⟩⟩)
        (fun p => p) "Bearer abc"
        = .ok ⟨"user-123", "test@example.com", "testuser"⟩) :=
  ⟨(authMiddleware_gate (fun _ => .error JwtError.tokenExpired) (fun p => p) "").1 rfl,
   (authMiddleware_gate (fun _ => .error JwtError.tokenExpired) (fun p => p)
      "Basic dXNlcg==").2.1 (by decide) (by decide),
   (authMiddleware_gate (fun _ => .error JwtError.tokenExpired) (fun p => p)
      "Bearer ").2.2.1 (by decide) (by decide),
   (authMiddleware_gate (fun _ => .error JwtError.tokenExpired) (fun p => p)
      "Bearer abc").2.2.2.1 JwtError.tokenExpired (by decide) (by decide) rfl,
   (authMiddleware_gate
      (fun _ => .ok ⟨"user-123", "test@example.com", "testuser", ⟨86400, 0, 0⟩⟩)
      (fun p => p) "Bearer abc").2.2.2.2
      ⟨"user-123", "test@example.com", "testuser", ⟨86400, 0, 0⟩⟩
      (by decide) (by decide) rfl⟩

end Spec2Proof
